import Mathlib

/-!
Verification development for the libcurl-based fetch engine of pkg
(`src/libpkg/fetch_libcurl.c`).

The embedding below translates the engine's state and control flow into
executable Lean definitions.  The libcurl transport itself is external to
the repository; it is modelled as a stub script: a list of attempt
outcomes, one per transfer actually driven to completion by the
`curl_multi_perform` loop.  Each outcome carries the callback invocations
libcurl would make while the transfer runs (header lines, progress ticks,
body writes), the `CURLMSG_DONE` flag, the final `CURLINFO_RESPONSE_CODE`,
and the modification time the handle reports via `CURLINFO_FILETIME_T`.

`dns_getsrvinfo` is not part of the sources provided; following the design
document it is modelled as returning a finite ordered list of records
(possibly empty).  Crashing executions (dereferencing a null
`dns_srvinfo` pointer when the mirror cursor walks past the tail of the
list) are modelled by returning `none` from the fetch function.
-/

/-- `repo->mirror_type` (`SRV`, `HTTP`, `NOMIRROR`). -/
inductive MirrorType
  | SRV
  | HTTP
  | NOMIRROR
deriving DecidableEq, Repr

/-- One record of the `struct dns_srvinfo` linked list (host and port;
the list itself is a Lean `List`, `[]` standing for the null pointer). -/
structure DnsSrvInfo where
  host : String
  port : Int
deriving DecidableEq, Repr

/-- The fields of `struct pkg_repo` read or written by this file:
`url`, `name`, `mirror_type`, `srv` and `fetch_priv` (modelled as a flag
recording whether the private data has been allocated). -/
structure PkgRepo where
  url : String
  name : String
  mirror_type : MirrorType
  srv : List DnsSrvInfo
  fetch_priv : Bool
deriving DecidableEq, Repr

/-- `struct fetch_item`: source url, advisory size, last known mtime. -/
structure FetchItem where
  url : String
  size : Nat
  mtime : Int
deriving DecidableEq, Repr

/-- Events delivered to the event sink (`pkg_emit_fetch_begin`,
`pkg_emit_progress_start`, `pkg_emit_progress_tick`, `pkg_emit_error`). -/
inductive Event
  | fetchBegin (url : String)
  | progressStart
  | progressTick (dlnow dltotal : Int)
  | error (msg : String)
deriving DecidableEq, Repr

/-- Result codes returned by the engine (`EPKG_OK`, `EPKG_FATAL`,
`EPKG_UPTODATE`). -/
inductive RetCode
  | EPKG_OK
  | EPKG_FATAL
  | EPKG_UPTODATE
deriving DecidableEq, Repr

/-- `struct curl_userdata`: the per-call callback state shared by the
write, header and progress callbacks.  `fhOpen` models whether the
`FILE *fh` obtained from `fdopen(dup(dest))` is still open. -/
structure CurlUserdata where
  size : Nat
  totalsize : Nat
  started : Bool
  url : String
  response : Int
  fhOpen : Bool
deriving DecidableEq, Repr

/-- One callback invocation made by the transport while a transfer runs.
`header code` is a header-line callback during which
`CURLINFO_RESPONSE_CODE` reports `code`; `progress` is a transfer-info
callback; `write` is a body-chunk callback delivering `chunk` bytes. -/
inductive Cb
  | header (code : Int)
  | progress (dltotal dlnow : Int)
  | write (chunk : Nat)
deriving DecidableEq, Repr

/-- Outcome of one transfer actually performed by the multi handle:
the callbacks fired while it ran, whether the completion message is
`CURLMSG_DONE`, the final response code, and the file time the easy
handle subsequently reports through `CURLINFO_FILETIME_T`. -/
structure Attempt where
  cbs : List Cb
  done : Bool
  rc : Int
  filetime : Int
deriving DecidableEq, Repr

/-- `curl_write_cb`: `fwrite` the chunk to `d->fh` and accumulate
`d->size`.  The second component flags the undefined behaviour of
writing to an already-closed stream (never exercised by the engine,
recorded for completeness). -/
def curl_write_cb (chunk : Nat) (d : CurlUserdata) : CurlUserdata × Bool :=
  ({ d with size := d.size + chunk }, !d.fhOpen)

/-- `curl_parseheader_cb`: re-read the response code, and the first time
it is 200 with the `started` flag still clear, emit
`pkg_emit_fetch_begin(d->url)` and `pkg_emit_progress_start` and set the
flag. -/
def curl_parseheader_cb (code : Int) (d : CurlUserdata) :
    CurlUserdata × List Event :=
  let d1 := { d with response := code }
  if d1.response = 200 ∧ d1.started = false then
    ({ d1 with started := true },
      [Event.fetchBegin d1.url, Event.progressStart])
  else
    (d1, [])

/-- `curl_progress_cb`: suppress the tick unless the last observed
response code is 200, else emit `pkg_emit_progress_tick(dlnow, dltotal)`. -/
def curl_progress_cb (dltotal dlnow : Int) (d : CurlUserdata) : List Event :=
  if d.response ≠ 200 then [] else [Event.progressTick dlnow dltotal]

/-- Run the callback invocations of one performed transfer in order,
threading the shared `curl_userdata`.  Returns the final state, the
events emitted, and the write-after-close flag. -/
def runCbs (cbs : List Cb) (d : CurlUserdata) :
    CurlUserdata × List Event × Bool :=
  match cbs with
  | [] => (d, [], false)
  | Cb.header code :: rest =>
      let p := curl_parseheader_cb code d
      let r := runCbs rest p.1
      (r.1, p.2 ++ r.2.1, r.2.2)
  | Cb.progress dltotal dlnow :: rest =>
      let evs := curl_progress_cb dltotal dlnow d
      let r := runCbs rest d
      (r.1, evs ++ r.2.1, r.2.2)
  | Cb.write chunk :: rest =>
      let w := curl_write_cb chunk d
      let r := runCbs rest w.1
      (r.1, r.2.1, w.2 || r.2.2)

/-- The target configured on the easy handle by one pass of the code at
the `retry:` label: an SRV mirror (`CURLUPART_HOST`/`CURLUPART_PORT` on
`cr->url`), the item's own url (`CURLOPT_URL`), or nothing (the `HTTP`
mirror branch is an empty TODO in the source). -/
inductive Target
  | mirror (host : String) (port : Int)
  | direct (url : String)
  | unset
deriving DecidableEq, Repr

/-- The mutable state of one `curl_fetch` call. -/
structure FetchState where
  d : CurlUserdata
  events : List Event
  retry : Int
  retcode : RetCode
  cursor : Option Nat
  targets : List Target
  sinkAtPass : List Bool
  lastFiletime : Option Int
  attempts : Nat
  ubWrite : Bool
deriving DecidableEq, Repr

/-- What a whole `curl_fetch` call produces: the return code, the
(possibly mutated) item, the events emitted, plus ghost observables —
the target configured at each pass of the `retry:` label, the number of
transfers actually performed, whether the sink was open at the start of
each pass, and how many times `fdopen(dup(dest))` produced a sink. -/
structure FetchOutcome where
  retcode : RetCode
  item : FetchItem
  events : List Event
  targets : List Target
  attempts : Nat
  sinkAtPass : List Bool
  sinkOpens : Nat
  ubWrite : Bool
deriving DecidableEq, Repr

/-- The fetch error diagnostic string of the source. -/
def errFetchMsg : String := "An error occured while fetching package"

/-- The code after the completion-message loop: read
`CURLINFO_FILETIME_T` into `fi->mtime` (the handle reports the file time
of the last transfer it performed, `-1` when it never ran one), remove
and clean up the handle, and return `retcode`. -/
def finishFetch (fi : FetchItem) (st : FetchState) : FetchOutcome :=
  { retcode := st.retcode
    item := { fi with mtime := st.lastFiletime.getD (-1) }
    events := st.events
    targets := st.targets
    attempts := st.attempts
    sinkAtPass := st.sinkAtPass
    sinkOpens := 1
    ubWrite := st.ubWrite }

/-- The code at the `retry:` label up to `curl_multi_add_handle`:
for `SRV` advance `srv_current` (`NULL` restarts at `repo->srv`,
otherwise `srv_current->next` — with no wrap: walking past the tail
dereferences a null pointer, modelled as `none`) and set host/port on
`cr->url`; for `HTTP` nothing (TODO in the source); otherwise set
`CURLOPT_URL` to `fi->url`.  Also records, as ghost state, whether the
sink is open when the pass begins. -/
def selectMirror (repo : PkgRepo) (fi : FetchItem) (st : FetchState) :
    Option FetchState :=
  let st0 := { st with sinkAtPass := st.sinkAtPass ++ [st.d.fhOpen] }
  match repo.mirror_type with
  | MirrorType.SRV =>
      let i := match st0.cursor with
        | none => 0
        | some j => j + 1
      match repo.srv.get? i with
      | none => none
      | some m =>
          some { st0 with
            cursor := some i
            targets := st0.targets ++ [Target.mirror m.host m.port] }
  | MirrorType.HTTP =>
      some { st0 with targets := st0.targets ++ [Target.unset] }
  | MirrorType.NOMIRROR =>
      some { st0 with targets := st0.targets ++ [Target.direct fi.url] }

/-- One pass from the `retry:` label to the end of `curl_fetch`.

`still` models the local `still_running` variable at the entry of the
`while (still_running)` perform loop: it is 1 only on the very first
pass; once the first transfer completes `curl_multi_perform` has set it
to 0 and a pass reached through `goto retry` skips the perform loop
entirely, so the re-added transfer is never driven and
`curl_multi_info_read` finds no completion message.

When the perform loop does run, the pending transfer completes with the
next scripted outcome: the callbacks fire, a completion message is
queued, and the message loop processes it — `fclose(data.fh)`, then
classification: 304 sets `EPKG_UPTODATE`; any other non-200 decrements
`retry`, on exhaustion or 404 emits the error diagnostic and sets
`EPKG_FATAL`, and in all those cases jumps back to `retry:`; 200 falls
through; a non-`CURLMSG_DONE` message only emits the error diagnostic. -/
def fetchRetryLoop (repo : PkgRepo) (fi : FetchItem) :
    List Attempt → Bool → FetchState → Option FetchOutcome
  | script, true, st =>
    (selectMirror repo fi st).bind fun st1 =>
      match script with
      | [] => none
      | a :: rest =>
          let r := runCbs a.cbs st1.d
          let st2 := { st1 with
            d := { r.1 with fhOpen := false }
            events := st1.events ++ r.2.1
            attempts := st1.attempts + 1
            lastFiletime := some a.filetime
            ubWrite := st1.ubWrite || r.2.2 }
          if a.done then
            if a.rc = 304 then
              some (finishFetch fi { st2 with retcode := RetCode.EPKG_UPTODATE })
            else if a.rc ≠ 200 then
              let retry1 := st2.retry - 1
              let st3 :=
                if retry1 ≤ 0 ∨ a.rc = 404 then
                  { st2 with
                    retry := retry1
                    events := st2.events ++ [Event.error errFetchMsg]
                    retcode := RetCode.EPKG_FATAL }
                else
                  { st2 with retry := retry1 }
              fetchRetryLoop repo fi rest false st3
            else
              some (finishFetch fi st2)
          else
            some (finishFetch fi
              { st2 with events := st2.events ++ [Event.error errFetchMsg] })
  | _script, false, st =>
    (selectMirror repo fi st).bind fun st1 =>
      some (finishFetch fi st1)

/-- The initial `curl_userdata` of a call (`data = { 0 }` followed by the
explicit field assignments). -/
def initUserdata (fi : FetchItem) : CurlUserdata :=
  { size := 0
    totalsize := fi.size
    started := false
    url := fi.url
    response := 0
    fhOpen := true }

/-- The initial per-call state: fresh userdata, retry budget from the
`FETCH_RETRY` configuration, `retcode = EPKG_OK`, `srv_current = NULL`. -/
def initFetchState (fi : FetchItem) (fetchRetry : Int) : FetchState :=
  { d := initUserdata fi
    events := []
    retry := fetchRetry
    retcode := RetCode.EPKG_OK
    cursor := none
    targets := []
    sinkAtPass := []
    lastFiletime := none
    attempts := 0
    ubWrite := false }

/-- `curl_fetch(repo, dest, fi)`.

`fdopenOk` models whether `fdopen(dup(dest), "w")` succeeds; on failure
the function returns `EPKG_FATAL` at once, before any transport setup or
event emission, with the item untouched.  `fetchRetry` is the
`FETCH_RETRY` configuration value and `script` the transport stub.
`none` models a crashing execution (null `srv_current` dereference). -/
def curl_fetch (repo : PkgRepo) (fdopenOk : Bool) (fi : FetchItem)
    (fetchRetry : Int) (script : List Attempt) : Option FetchOutcome :=
  if fdopenOk then
    fetchRetryLoop repo fi script true (initFetchState fi fetchRetry)
  else
    some { retcode := RetCode.EPKG_FATAL
           item := fi
           events := []
           targets := []
           attempts := 0
           sinkAtPass := []
           sinkOpens := 0
           ubWrite := false }

/-- Strip the optional case-insensitive `pkg+` scheme marker
(`strncasecmp(repo->url, "pkg+", 4) == 0` makes `curl_open` parse the
url from offset 4). -/
def stripPkgPlus (url : String) : String :=
  if (url.data.take 4).map Char.toLower = "pkg+".data then
    String.mk (url.data.drop 4)
  else url

/-- Result of `curl_open`: the updated repository, the events emitted,
the return code, and — as a ghost observable — whether `dns_getsrvinfo`
was queried during the call. -/
structure OpenOutcome where
  repo : PkgRepo
  events : List Event
  ret : RetCode
  queriedDiscovery : Bool
deriving Repr

/-- `curl_open(repo, fi)`.

`parseHost` models `curl_url_set(CURLUPART_URL)` followed by
`curl_url_get(CURLUPART_HOST)` (`none` = the url does not parse);
`resolve` models `dns_getsrvinfo` on the `_http._tcp.<host>` zone
(`[]` = null result).  If the private data already exists the call is a
no-op.  Otherwise it is allocated; then, only for an `SRV` repository
with no resolved list yet, the url is parsed (failure emits a
diagnostic and returns `EPKG_FATAL`) and the SRV zone is resolved; an
empty resolution emits a diagnostic and downgrades `mirror_type` to
`NOMIRROR`. -/
def curl_open (repo : PkgRepo) (parseHost : String → Option String)
    (resolve : String → List DnsSrvInfo) : OpenOutcome :=
  if repo.fetch_priv then
    { repo := repo, events := [], ret := RetCode.EPKG_OK,
      queriedDiscovery := false }
  else
    let repo1 := { repo with fetch_priv := true }
    if repo1.mirror_type = MirrorType.SRV ∧ repo1.srv = [] then
      match parseHost (stripPkgPlus repo1.url) with
      | none =>
          { repo := repo1
            events := [Event.error ("impossible to parse url: " ++ repo1.url)]
            ret := RetCode.EPKG_FATAL
            queriedDiscovery := false }
      | some host =>
          let recs := resolve ("_http._tcp." ++ host)
          if recs = [] then
            { repo := { repo1 with mirror_type := MirrorType.NOMIRROR }
              events := [Event.error
                ("No SRV record found for the repo " ++ repo1.name)]
              ret := RetCode.EPKG_OK
              queriedDiscovery := true }
          else
            { repo := { repo1 with srv := recs }
              events := []
              ret := RetCode.EPKG_OK
              queriedDiscovery := true }
    else
      { repo := repo1, events := [], ret := RetCode.EPKG_OK,
        queriedDiscovery := false }

/-- Is an event a `fetch-begin`? -/
def isBegin : Event → Bool
  | Event.fetchBegin _ => true
  | _ => false

/-- Is an event a `progress-tick`? -/
def isTick : Event → Bool
  | Event.progressTick _ _ => true
  | _ => false

/-- Is an event an error diagnostic? -/
def isErr : Event → Bool
  | Event.error _ => true
  | _ => false

/-- Number of `fetch-begin` events in a log. -/
def beginCount (evs : List Event) : Nat := (evs.filter isBegin).length

/-- Number of `progress-tick` events in a log. -/
def tickCount (evs : List Event) : Nat := (evs.filter isTick).length

/-- Number of error diagnostics in a log. -/
def errCount (evs : List Event) : Nat := (evs.filter isErr).length

/-- Does a callback invocation observe response code 200 on a header
line? -/
def isHeader200 : Cb → Bool
  | Cb.header code => decide (code = 200)
  | _ => false

/-! ### Concrete fixtures used by the scenario evaluations -/

/-- A repository with no mirroring. -/
def repoNomirror : PkgRepo :=
  { url := "http://pkg.example.org/repo"
    name := "example"
    mirror_type := MirrorType.NOMIRROR
    srv := []
    fetch_priv := true }

/-- An SRV repository whose resolved mirror list has a single record. -/
def repoSrvOne : PkgRepo :=
  { repoNomirror with
    mirror_type := MirrorType.SRV
    srv := [{ host := "m1", port := 80 }] }

/-- An SRV repository with three resolved mirrors. -/
def repoSrvThree : PkgRepo :=
  { repoNomirror with
    mirror_type := MirrorType.SRV
    srv := [{ host := "m1", port := 80 }, { host := "m2", port := 80 },
            { host := "m3", port := 80 }] }

/-- An SRV repository before `curl_open`, with a `pkg+` url. -/
def repoSrvFresh : PkgRepo :=
  { url := "pkg+http://pkgmir.example.org/"
    name := "example"
    mirror_type := MirrorType.SRV
    srv := []
    fetch_priv := false }

/-- A url parser recognizing the fixture's repository url. -/
def parseHostW : String → Option String := fun s =>
  if s = "http://pkgmir.example.org/" then some "pkgmir.example.org"
  else none

/-- A discovery stub that resolves every zone to zero records. -/
def resolveEmptyW : String → List DnsSrvInfo := fun _ => []

/-- The fetched item of the scenarios. -/
def itemPkg : FetchItem :=
  { url := "http://mirror/pkg.txz", size := 100, mtime := 5 }

/-- A transfer that fails with a 500 status. -/
def attempt500 : Attempt :=
  { cbs := [Cb.header 500], done := true, rc := 500, filetime := 77 }

/-- A transfer that fails with a 404 status. -/
def attempt404 : Attempt :=
  { cbs := [Cb.header 404], done := true, rc := 404, filetime := 77 }

/-- A not-modified transfer: terminal status 304, the header callback
fires once, the reported file time (99) differs from the item's stored
modification time (5). -/
def attempt304 : Attempt :=
  { cbs := [Cb.header 304], done := true, rc := 304, filetime := 99 }

/-- A successful transfer: a redirect header line, then several header
lines observing status 200, a body write and a progress tick; reported
file time 42. -/
def attempt200 : Attempt :=
  { cbs := [Cb.header 301, Cb.header 200, Cb.header 200, Cb.header 200,
            Cb.write 50, Cb.progress 100 50]
    done := true, rc := 200, filetime := 42 }

/-- Placeholder outcome used to project optional results in closed
statements. -/
def emptyOutcome : FetchOutcome :=
  { retcode := RetCode.EPKG_OK, item := itemPkg, events := [], targets := []
    attempts := 0, sinkAtPass := [], sinkOpens := 0, ubWrite := false }

/-! ### Basic lemmas about the event counters and the callback runner -/

theorem beginCount_append (xs ys : List Event) :
    beginCount (xs ++ ys) = beginCount xs + beginCount ys := by
  simp [beginCount, List.filter_append]

theorem tickCount_append (xs ys : List Event) :
    tickCount (xs ++ ys) = tickCount xs + tickCount ys := by
  simp [tickCount, List.filter_append]

theorem errCount_append (xs ys : List Event) :
    errCount (xs ++ ys) = errCount xs + errCount ys := by
  simp [errCount, List.filter_append]

/-- The `started` flag after running a transfer's callbacks: it is set
exactly when it was set before, or some header-line callback observed
response code 200. -/
theorem runCbs_started (cbs : List Cb) (d : CurlUserdata) :
    (runCbs cbs d).1.started = (d.started || cbs.any isHeader200) := by
  induction cbs generalizing d with
  | nil => simp [runCbs]
  | cons c rest ih =>
    cases c with
    | header code =>
      by_cases h200 : code = 200
      · by_cases hst : d.started = true
        · simp [runCbs, curl_parseheader_cb, h200, hst, ih, isHeader200]
        · simp only [Bool.not_eq_true] at hst
          simp [runCbs, curl_parseheader_cb, h200, hst, ih, isHeader200]
      · simp [runCbs, curl_parseheader_cb, h200, ih, isHeader200]
    | progress dltotal dlnow =>
      simp [runCbs, curl_progress_cb, ih, isHeader200]
    | write chunk =>
      simp [runCbs, curl_write_cb, ih, isHeader200]

theorem beginCount_cons (e : Event) (evs : List Event) :
    beginCount (e :: evs) = (if isBegin e then 1 else 0) + beginCount evs := by
  by_cases h : isBegin e <;>
    simp [beginCount, List.filter_cons, h, Nat.add_comm]

theorem beginCount_nil : beginCount [] = 0 := rfl

theorem beginCount_beginPair (u : String) :
    beginCount [Event.fetchBegin u, Event.progressStart] = 1 := rfl

theorem beginCount_tick (a b : Int) :
    beginCount [Event.progressTick a b] = 0 := rfl

/-- Number of `fetch-begin` events a transfer's callbacks emit: none when
the flag is already set, one exactly when some header callback observes
200, zero otherwise. -/
theorem runCbs_beginCount (cbs : List Cb) (d : CurlUserdata) :
    beginCount (runCbs cbs d).2.1 =
      if d.started then 0 else if cbs.any isHeader200 then 1 else 0 := by
  induction cbs generalizing d with
  | nil => simp [runCbs, beginCount_nil]
  | cons c rest ih =>
    cases c with
    | header code =>
      by_cases h200 : code = 200
      · by_cases hst : d.started = true
        · simp [runCbs, curl_parseheader_cb, h200, hst, beginCount_append,
            beginCount_nil, ih, isHeader200]
        · simp only [Bool.not_eq_true] at hst
          simp [runCbs, curl_parseheader_cb, h200, hst, beginCount_append,
            beginCount_cons, isBegin, ih, isHeader200]
      · simp [runCbs, curl_parseheader_cb, h200, beginCount_append,
          beginCount_nil, ih, isHeader200]
    | progress dltotal dlnow =>
      by_cases hr : d.response = 200
      · simp [runCbs, curl_progress_cb, hr, beginCount_append,
          beginCount_cons, isBegin, ih, isHeader200]
      · simp [runCbs, curl_progress_cb, hr, beginCount_append,
          beginCount_nil, ih, isHeader200]
    | write chunk =>
      simp [runCbs, curl_write_cb, ih, isHeader200]

/-! ### Structure of one `curl_fetch` call -/

/-- A pass of the `retry:` label that does not crash only records the
sink state and appends one configured target: every other component of
the call state is untouched. -/
theorem selectMirror_some (repo : PkgRepo) (fi : FetchItem)
    (st st' : FetchState) (h : selectMirror repo fi st = some st') :
    st'.d = st.d ∧ st'.events = st.events ∧ st'.retry = st.retry ∧
    st'.retcode = st.retcode ∧
    st'.sinkAtPass = st.sinkAtPass ++ [st.d.fhOpen] ∧
    st'.lastFiletime = st.lastFiletime ∧ st'.attempts = st.attempts ∧
    st'.ubWrite = st.ubWrite := by
  unfold selectMirror at h
  dsimp only [] at h
  split at h
  · split at h
    · exact Option.noConfusion h
    · injection h with h'
      subst h'
      simp
  · injection h with h'
    subst h'
    simp
  · injection h with h'
    subst h'
    simp

/-- Structure of every successful (non-crashing) `curl_fetch` call with a
working sink: exactly one transfer is performed — the first scripted
attempt — and the call's event log is that attempt's callback events,
possibly followed by one terminal error diagnostic; the sink is opened
once, open at the first pass of `retry:` and closed at the second when
the retry jump is taken. -/
theorem curl_fetch_shape (repo : PkgRepo) (fi : FetchItem) (retry : Int)
    (script : List Attempt) (o : FetchOutcome)
    (h : curl_fetch repo true fi retry script = some o) :
    ∃ a rest, script = a :: rest ∧
      (o.events = (runCbs a.cbs (initUserdata fi)).2.1 ∨
        o.events = (runCbs a.cbs (initUserdata fi)).2.1 ++
          [Event.error errFetchMsg]) ∧
      o.sinkOpens = 1 ∧
      (o.sinkAtPass = [true] ∨ o.sinkAtPass = [true, false]) ∧
      o.attempts = 1 := by
  simp only [curl_fetch, if_true] at h
  rw [fetchRetryLoop] at h
  rw [Option.bind_eq_some] at h
  obtain ⟨st1, hsel, h⟩ := h
  obtain ⟨hd1, hev1, -, -, hsp1, -, hat1, -⟩ :=
    selectMirror_some _ _ _ _ hsel
  simp only [if_true] at h
  cases script with
  | nil => exact Option.noConfusion h
  | cons a rest =>
    refine ⟨a, rest, rfl, ?_⟩
    simp only [initFetchState] at hd1 hev1 hsp1 hat1
    by_cases hdone : a.done = true
    · simp only [hdone, if_true] at h
      by_cases h304 : a.rc = 304
      · simp only [h304, if_pos rfl] at h
        injection h with h'
        subst h'
        simp [finishFetch, hd1, hev1, hsp1, hat1, initUserdata]
      · simp only [if_neg h304] at h
        by_cases h200 : a.rc = 200
        · simp only [h200, ne_eq, not_true_eq_false, if_false] at h
          injection h with h'
          subst h'
          simp [finishFetch, hd1, hev1, hsp1, hat1, initUserdata]
        · simp only [ne_eq, h200, not_false_eq_true, if_true] at h
          rw [fetchRetryLoop] at h
          rw [Option.bind_eq_some] at h
          obtain ⟨st4, hsel2, h⟩ := h
          obtain ⟨-, hev4, -, -, hsp4, -, hat4, -⟩ :=
            selectMirror_some _ _ _ _ hsel2
          injection h with h'
          subst h'
          by_cases hterm : st1.retry - 1 ≤ 0 ∨ a.rc = 404
          · simp only [if_pos hterm] at hev4 hsp4 hat4 hsel2
            simp [finishFetch, hev4, hsp4, hat4, hd1, hev1, hsp1, hat1,
              initUserdata]
          · simp only [if_neg hterm] at hev4 hsp4 hat4 hsel2
            simp [finishFetch, hev4, hsp4, hat4, hd1, hev1, hsp1, hat1,
              initUserdata]
    · simp only [Bool.not_eq_true] at hdone
      simp only [hdone, Bool.false_eq_true, if_false] at h
      injection h with h'
      subst h'
      simp [finishFetch, hd1, hev1, hsp1, hat1, initUserdata]

/-! ### Claims -/

/-- Claim C10: when duplicating the caller's destination descriptor into
a writable sink fails at the start of a fetch call (`fdopen(dup(dest))`
returns null), `curl_fetch` returns `EPKG_FATAL` immediately: no target
is configured, no transfer is performed, no event of any kind is
emitted, and the item — its modification time included — is unchanged. -/
theorem claim_C10 (repo : PkgRepo) (fi : FetchItem) (retry : Int)
    (script : List Attempt) :
    curl_fetch repo false fi retry script =
      some { retcode := RetCode.EPKG_FATAL, item := fi, events := [],
             targets := [], attempts := 0, sinkAtPass := [],
             sinkOpens := 0, ubWrite := false } := by
  simp [curl_fetch]

/-- Claim C2 fails on the code: with retry ceiling 3 and a transport
whose attempts would all be transient 500 failures, the call performs
exactly one transfer and returns `EPKG_OK` — not `EPKG_FATAL` after four
attempts — because the retry jump re-enters the perform loop after
`still_running` has already reached 0, so the re-added transfer is never
driven and the function falls through with the initial `EPKG_OK`. -/
theorem claim_C2_code_bug :
    (curl_fetch repoNomirror true itemPkg 3
        [attempt500, attempt500, attempt500, attempt500]).map
      (fun o => (o.retcode, o.attempts, errCount o.events)) =
      some (RetCode.EPKG_OK, 1, 0) := by
  decide

/-- Claim C4 fails on the code in its modification-time part: a fetch
call whose single transfer terminates with status 304 does return
`EPKG_UPTODATE` and emits neither `fetch-begin` nor `progress-tick`,
but `fi->mtime` is not left unchanged — the unconditional
`CURLINFO_FILETIME_T` read at the end of `curl_fetch` overwrites it
(here with the transfer's reported file time 99, while the item held 5). -/
theorem claim_C4_code_bug :
    (curl_fetch repoNomirror true itemPkg 3 [attempt304]).map
        (fun o => (o.retcode, o.item.mtime, beginCount o.events,
          tickCount o.events)) =
      some (RetCode.EPKG_UPTODATE, 99, 0, 0) ∧
    (curl_fetch repoNomirror true itemPkg 3 [attempt304]).map
        (fun o => o.item.mtime) ≠ some itemPkg.mtime := by
  decide

/-- Claim C6 fails on the code: with three resolved SRV mirrors, a
forced-failure transport and retry ceiling 4, one single transfer is
performed (against m1); the aborted retry jump configures m2 but never
drives it, and the call returns — `m3` is never selected and no wrap to
`m1` ever happens (the cursor advance `srv_current->next` has no
wrap-around at all). -/
theorem claim_C6_code_bug :
    (curl_fetch repoSrvThree true itemPkg 4
        [attempt500, attempt500, attempt500, attempt500]).map
      (fun o => (o.targets, o.attempts, o.retcode)) =
      some ([Target.mirror "m1" 80, Target.mirror "m2" 80], 1,
        RetCode.EPKG_OK) := by
  decide

/-- Claim C5's scenario fails on the code: with retry ceiling 3 and a
transport stub scripted 500, 500, 200, the call does return `EPKG_OK`
but zero error diagnostics are emitted, not two — a retried transient
failure emits no diagnostic (`pkg_emit_error` is reached only when the
budget is exhausted or the status is 404), and the broken retry loop
performs only the first transfer anyway. -/
theorem claim_C5_counterexample :
    (curl_fetch repoNomirror true itemPkg 3
        [attempt500, attempt500, attempt200]).map
      (fun o => errCount o.events) ≠ some 2 := by
  decide

/-- Claim C5 amended: an error diagnostic is emitted only when a failure
is classified terminal (retry budget exhausted or status 404) or the
completion message is anomalous, never for a retried transient failure;
in the scenario (ceiling 3, transport scripted 500, 500, 200) the call
returns `EPKG_OK` after performing only the first transfer, with zero
error diagnostics and zero fetch-begin events. -/
theorem claim_C5_amended :
    (curl_fetch repoNomirror true itemPkg 3
        [attempt500, attempt500, attempt200]).map
      (fun o => (o.retcode, errCount o.events, o.attempts,
        beginCount o.events)) =
      some (RetCode.EPKG_OK, 0, 1, 0) := by
  decide

/-- Claim C1 fails on the code as universally stated: on an SRV
repository whose resolved list has a single mirror, a 404 on the first
attempt does not make the call return `EPKG_FATAL` — the `goto retry`
taken after classifying the 404 advances `srv_current` past the tail of
the mirror list and dereferences a null pointer (a crashing execution,
modelled as `none`). -/
theorem claim_C1_counterexample :
    curl_fetch repoSrvOne true itemPkg 5 [attempt404] = none ∧
    (curl_fetch repoSrvOne true itemPkg 5 [attempt404]).map
      (fun o => o.retcode) ≠ some RetCode.EPKG_FATAL := by
  decide

theorem beginCount_error (m : String) :
    beginCount [Event.error m] = 0 := rfl

/-- Claim C3: the fetch-begin event is emitted at most once for a whole
`curl_fetch` call, and only if a header callback observed response code
200; and a call whose (performed) transfer observes 200 on a header
line — even on several header lines — emits exactly one fetch-begin. -/
theorem claim_C3 :
    (∀ (repo : PkgRepo) (fdok : Bool) (fi : FetchItem) (retry : Int)
        (script : List Attempt) (o : FetchOutcome),
        curl_fetch repo fdok fi retry script = some o →
        beginCount o.events ≤ 1) ∧
    (∀ (repo : PkgRepo) (fdok : Bool) (fi : FetchItem) (retry : Int)
        (script : List Attempt) (o : FetchOutcome),
        curl_fetch repo fdok fi retry script = some o →
        1 ≤ beginCount o.events →
        ∃ a, script.head? = some a ∧ a.cbs.any isHeader200 = true) ∧
    (∀ (repo : PkgRepo) (fi : FetchItem) (retry : Int) (a : Attempt)
        (rest : List Attempt) (o : FetchOutcome),
        a.done = true → a.rc = 200 → a.cbs.any isHeader200 = true →
        curl_fetch repo true fi retry (a :: rest) = some o →
        beginCount o.events = 1) := by
  have hback : ∀ (fi : FetchItem) (a : Attempt),
      beginCount (runCbs a.cbs (initUserdata fi)).2.1 =
        if a.cbs.any isHeader200 then 1 else 0 := by
    intro fi a
    have hb := runCbs_beginCount a.cbs (initUserdata fi)
    have hst : (initUserdata fi).started = false := rfl
    rw [hst] at hb
    simpa using hb
  refine ⟨?_, ?_, ?_⟩
  · intro repo fdok fi retry script o h
    cases fdok with
    | false =>
        simp only [curl_fetch, Bool.false_eq_true, if_false] at h
        injection h with h'
        subst h'
        simp [beginCount]
    | true =>
        obtain ⟨a, rest, -, hev, -, -, -⟩ := curl_fetch_shape _ _ _ _ _ h
        rcases hev with hev | hev <;>
          rw [hev] <;>
          simp only [beginCount_append, beginCount_error, hback] <;>
          split <;> simp
  · intro repo fdok fi retry script o h hge
    cases fdok with
    | false =>
        simp only [curl_fetch, Bool.false_eq_true, if_false] at h
        injection h with h'
        subst h'
        simp [beginCount] at hge
    | true =>
        obtain ⟨a, rest, hscript, hev, -, -, -⟩ := curl_fetch_shape _ _ _ _ _ h
        refine ⟨a, by rw [hscript]; rfl, ?_⟩
        by_contra hany
        simp only [Bool.not_eq_true] at hany
        rcases hev with hev | hev <;>
          rw [hev] at hge <;>
          simp [beginCount_append, beginCount_error, hback, hany] at hge
  · intro repo fi retry a rest o hdone hrc hany h
    obtain ⟨a', rest', hscript, hev, -, -, -⟩ := curl_fetch_shape _ _ _ _ _ h
    have ha : a' = a := by
      injection hscript with h1 h2
      exact h1.symm
    subst ha
    rcases hev with hev | hev <;>
      rw [hev] <;>
      simp [beginCount_append, beginCount_error, hback, hany]

/-- Witness for claim C3 at a concrete input: the fixture's successful
transfer observes 200 on three header lines and the call emits exactly
one fetch-begin. -/
theorem claim_C3_witness :
    beginCount
      ((curl_fetch repoNomirror true itemPkg 3 [attempt200]).getD
        emptyOutcome).events = 1 :=
  claim_C3.2.2 repoNomirror itemPkg 3 attempt200 []
    ((curl_fetch repoNomirror true itemPkg 3 [attempt200]).getD emptyOutcome)
    rfl rfl (by decide) rfl

/-- Claim C8 fails on the code: in a call that takes the retry jump, the
pass of `retry:` reached through `goto` begins with the sink already
closed (it was `fclose`d in the completion-message loop) and no second
`fdopen(dup(dest))` ever happens — the sink is not reopened as a fresh
duplicate for the retry attempt. -/
theorem claim_C8_counterexample :
    (curl_fetch repoNomirror true itemPkg 3 [attempt500]).map
      (fun o => (o.sinkAtPass, o.sinkOpens)) = some ([true, false], 1) ∧
    (curl_fetch repoNomirror true itemPkg 3 [attempt500]).map
      (fun o => o.sinkAtPass.all (fun b => b)) ≠ some true := by
  decide

/-- Claim C8 amended: the destination sink is duplicated from the
caller's descriptor exactly once, at the start of the call; it is open
at the first pass of the `retry:` label and, when the retry jump is
taken, the second pass begins with the sink closed and never reopened. -/
theorem claim_C8_amended (repo : PkgRepo) (fi : FetchItem) (retry : Int)
    (script : List Attempt) (o : FetchOutcome)
    (h : curl_fetch repo true fi retry script = some o) :
    o.sinkOpens = 1 ∧
    (o.sinkAtPass = [true] ∨ o.sinkAtPass = [true, false]) := by
  obtain ⟨-, -, -, -, hso, hsp, -⟩ := curl_fetch_shape _ _ _ _ _ h
  exact ⟨hso, hsp⟩

/-- Witness for claim C8 amended at a concrete input. -/
theorem claim_C8_witness :
    ((curl_fetch repoNomirror true itemPkg 3 [attempt500]).getD
        emptyOutcome).sinkOpens = 1 ∧
    (((curl_fetch repoNomirror true itemPkg 3 [attempt500]).getD
        emptyOutcome).sinkAtPass = [true] ∨
      ((curl_fetch repoNomirror true itemPkg 3 [attempt500]).getD
        emptyOutcome).sinkAtPass = [true, false]) :=
  claim_C8_amended repoNomirror itemPkg 3 [attempt500]
    ((curl_fetch repoNomirror true itemPkg 3 [attempt500]).getD emptyOutcome)
    rfl

/-- Claim C9: whenever the sink opens and the (single performed)
transfer completes with status 200, the call returns `EPKG_OK` and the
item's modification time is overwritten with the modification time that
transfer reported, its other fields unchanged.  For an SRV repository
the resolved list must be non-empty (guaranteed by `curl_open`),
otherwise the first pass already dereferences a null mirror record. -/
theorem claim_C9 (repo : PkgRepo) (fi : FetchItem) (retry : Int)
    (a : Attempt) (rest : List Attempt)
    (hsrv : repo.mirror_type = MirrorType.SRV → repo.srv ≠ [])
    (hdone : a.done = true) (hrc : a.rc = 200) :
    (curl_fetch repo true fi retry (a :: rest)).map
      (fun o => (o.retcode, o.item)) =
      some (RetCode.EPKG_OK, { fi with mtime := a.filetime }) := by
  cases hmt : repo.mirror_type with
  | SRV =>
      rcases hsrvl : repo.srv with - | ⟨m, tl⟩
      · exact absurd hsrvl (hsrv hmt)
      · simp [curl_fetch, fetchRetryLoop, selectMirror, finishFetch, hmt,
          hsrvl, hdone, hrc, initFetchState, initUserdata]
  | HTTP =>
      simp [curl_fetch, fetchRetryLoop, selectMirror, finishFetch, hmt,
        hdone, hrc, initFetchState, initUserdata]
  | NOMIRROR =>
      simp [curl_fetch, fetchRetryLoop, selectMirror, finishFetch, hmt,
        hdone, hrc, initFetchState, initUserdata]

/-- Witness for claim C9 at a concrete input: the fixture's 200 transfer
reports file time 42 and the item is updated accordingly. -/
theorem claim_C9_witness :
    (curl_fetch repoNomirror true itemPkg 3 [attempt200]).map
      (fun o => (o.retcode, o.item)) =
      some (RetCode.EPKG_OK, { itemPkg with mtime := 42 }) :=
  claim_C9 repoNomirror itemPkg 3 attempt200 []
    (fun hmt => absurd hmt (by decide)) rfl rfl

/-- Claim C1 amended: for every fetch call whose performed transfer
terminates with status 404 — on a repository that is not SRV, or an SRV
repository with at least two resolved mirrors — the call returns
`EPKG_FATAL` having performed exactly one transfer, regardless of the
remaining retry budget.  (With exactly one resolved SRV mirror the retry
jump crashes instead, see the counterexample.) -/
theorem claim_C1_amended (repo : PkgRepo) (fi : FetchItem) (retry : Int)
    (a : Attempt) (rest : List Attempt)
    (hwrap : repo.mirror_type = MirrorType.SRV → 2 ≤ repo.srv.length)
    (hdone : a.done = true) (hrc : a.rc = 404) :
    (curl_fetch repo true fi retry (a :: rest)).map
      (fun o => (o.retcode, o.attempts)) =
      some (RetCode.EPKG_FATAL, 1) := by
  cases hmt : repo.mirror_type with
  | SRV =>
      rcases hsrvl : repo.srv with - | ⟨m1, - | ⟨m2, tl⟩⟩
      · have := hwrap hmt
        rw [hsrvl] at this
        simp at this
      · have := hwrap hmt
        rw [hsrvl] at this
        simp at this
      · simp [curl_fetch, fetchRetryLoop, selectMirror, finishFetch, hmt,
          hsrvl, hdone, hrc, initFetchState, initUserdata]
  | HTTP =>
      simp [curl_fetch, fetchRetryLoop, selectMirror, finishFetch, hmt,
        hdone, hrc, initFetchState, initUserdata]
  | NOMIRROR =>
      simp [curl_fetch, fetchRetryLoop, selectMirror, finishFetch, hmt,
        hdone, hrc, initFetchState, initUserdata]

/-- Witness for claim C1 amended at a concrete input: a 404 on an SRV
repository with three mirrors is fatal after one transfer even with
budget left. -/
theorem claim_C1_witness :
    (curl_fetch repoSrvThree true itemPkg 5 [attempt404]).map
      (fun o => (o.retcode, o.attempts)) =
      some (RetCode.EPKG_FATAL, 1) :=
  claim_C1_amended repoSrvThree itemPkg 5 attempt404 []
    (fun _ => by decide) rfl rfl

/-- On a repository without mirroring, a pass of the `retry:` label
always succeeds and configures the item's own url. -/
theorem selectMirror_nomirror (repo : PkgRepo) (fi : FetchItem)
    (st : FetchState) (hmt : repo.mirror_type = MirrorType.NOMIRROR) :
    selectMirror repo fi st =
      some { st with
        sinkAtPass := st.sinkAtPass ++ [st.d.fhOpen]
        targets := st.targets ++ [Target.direct fi.url] } := by
  simp [selectMirror, hmt]

/-- On a repository without mirroring, every target the retry loop
configures is the item's own url. -/
theorem fetchRetryLoop_nomirror_targets (repo : PkgRepo) (fi : FetchItem)
    (hmt : repo.mirror_type = MirrorType.NOMIRROR) :
    ∀ (script : List Attempt) (still : Bool) (st : FetchState)
      (o : FetchOutcome),
      fetchRetryLoop repo fi script still st = some o →
      (∀ t ∈ st.targets, t = Target.direct fi.url) →
      ∀ t ∈ o.targets, t = Target.direct fi.url := by
  intro script
  induction script with
  | nil =>
      intro still st o h hinv
      cases still with
      | false =>
          rw [fetchRetryLoop, selectMirror_nomirror _ _ _ hmt] at h
          simp only [Option.some_bind] at h
          injection h with h'
          subst h'
          simp only [finishFetch]
          intro t ht
          rcases List.mem_append.mp ht with ht | ht
          · exact hinv t ht
          · simpa using ht
      | true =>
          rw [fetchRetryLoop, selectMirror_nomirror _ _ _ hmt] at h
          simp at h
  | cons a rest ih =>
      intro still st o h hinv
      cases still with
      | false =>
          rw [fetchRetryLoop, selectMirror_nomirror _ _ _ hmt] at h
          simp only [Option.some_bind] at h
          injection h with h'
          subst h'
          simp only [finishFetch]
          intro t ht
          rcases List.mem_append.mp ht with ht | ht
          · exact hinv t ht
          · simpa using ht
      | true =>
          rw [fetchRetryLoop, selectMirror_nomirror _ _ _ hmt] at h
          simp only [Option.some_bind] at h
          have hinv1 : ∀ t ∈ st.targets ++ [Target.direct fi.url],
              t = Target.direct fi.url := by
            intro t ht
            rcases List.mem_append.mp ht with ht | ht
            · exact hinv t ht
            · simpa using ht
          by_cases hdone : a.done = true
          · simp only [hdone, if_true] at h
            by_cases h304 : a.rc = 304
            · simp only [h304, if_pos rfl] at h
              injection h with h'
              subst h'
              simpa only [finishFetch] using hinv1
            · simp only [if_neg h304] at h
              by_cases h200 : a.rc = 200
              · simp only [h200, ne_eq, not_true_eq_false, if_false] at h
                injection h with h'
                subst h'
                simpa only [finishFetch] using hinv1
              · simp only [ne_eq, h200, not_false_eq_true, if_true] at h
                refine ih false _ o h ?_
                by_cases hterm :
                    ({ st with
                        sinkAtPass := st.sinkAtPass ++ [st.d.fhOpen]
                        targets := st.targets ++ [Target.direct fi.url]
                        } : FetchState).retry - 1 ≤ 0 ∨ a.rc = 404
                · simpa only [if_pos hterm] using hinv1
                · simpa only [if_neg hterm] using hinv1
          · simp only [Bool.not_eq_true] at hdone
            simp only [hdone, Bool.false_eq_true, if_false] at h
            injection h with h'
            subst h'
            simpa only [finishFetch] using hinv1

/-- Claim C7: when service-discovery resolution returns zero records,
`curl_open` downgrades the session's mirror strategy to `NOMIRROR`
permanently — a further `curl_open` on the downgraded session is a
no-op that never queries discovery again, and every fetch call on the
downgraded session only ever configures the item's own url (and
`curl_fetch` never mutates the session, so this holds for all
subsequent calls). -/
theorem claim_C7 (repo : PkgRepo)
    (parseHost parse2 : String → Option String)
    (resolve resolve2 : String → List DnsSrvInfo)
    (host : String) (fdok : Bool) (fi : FetchItem) (retry : Int)
    (script : List Attempt) (o : FetchOutcome)
    (hpriv : repo.fetch_priv = false)
    (hmt : repo.mirror_type = MirrorType.SRV)
    (hsrv : repo.srv = [])
    (hparse : parseHost (stripPkgPlus repo.url) = some host)
    (hres : resolve ("_http._tcp." ++ host) = []) :
    (curl_open repo parseHost resolve).repo.mirror_type =
        MirrorType.NOMIRROR ∧
    (curl_open repo parseHost resolve).queriedDiscovery = true ∧
    curl_open (curl_open repo parseHost resolve).repo parse2 resolve2 =
      { repo := (curl_open repo parseHost resolve).repo, events := [],
        ret := RetCode.EPKG_OK, queriedDiscovery := false } ∧
    (curl_fetch (curl_open repo parseHost resolve).repo fdok fi retry script
        = some o → ∀ t ∈ o.targets, t = Target.direct fi.url) := by
  have hopen : curl_open repo parseHost resolve =
      { repo :=
          { repo with
            fetch_priv := true
            mirror_type := MirrorType.NOMIRROR },
        events :=
          [Event.error ("No SRV record found for the repo " ++ repo.name)],
        ret := RetCode.EPKG_OK,
        queriedDiscovery := true } := by
    simp [curl_open, hpriv, hmt, hsrv, hparse, hres]
  rw [hopen]
  refine ⟨rfl, rfl, ?_, ?_⟩
  · simp [curl_open]
  · intro h
    cases fdok with
    | false =>
        simp only [curl_fetch, Bool.false_eq_true, if_false] at h
        injection h with h'
        subst h'
        intro t ht
        simp at ht
    | true =>
        simp only [curl_fetch, if_true] at h
        refine fetchRetryLoop_nomirror_targets _ fi rfl script true _ o h ?_
        intro t ht
        simp [initFetchState] at ht

/-- Witness for claim C7 at a concrete input: a fresh SRV session whose
discovery resolves to zero records is downgraded to direct fetching and
a repeated open is a silent no-op that does not query discovery. -/
theorem claim_C7_witness :
    (curl_open repoSrvFresh parseHostW resolveEmptyW).repo.mirror_type =
        MirrorType.NOMIRROR ∧
    (curl_open repoSrvFresh parseHostW resolveEmptyW).queriedDiscovery =
        true ∧
    curl_open (curl_open repoSrvFresh parseHostW resolveEmptyW).repo
        parseHostW resolveEmptyW =
      { repo := (curl_open repoSrvFresh parseHostW resolveEmptyW).repo,
        events := [], ret := RetCode.EPKG_OK,
        queriedDiscovery := false } := by
  obtain ⟨h1, h2, h3, -⟩ :=
    claim_C7 repoSrvFresh parseHostW parseHostW resolveEmptyW resolveEmptyW
      "pkgmir.example.org" true itemPkg 3 [] emptyOutcome rfl rfl rfl
      (by decide) rfl
  exact ⟨h1, h2, h3⟩

/-- Witness for claim C10 at a concrete input. -/
theorem claim_C10_witness :
    curl_fetch repoNomirror false itemPkg 3 [attempt200] =
      some { retcode := RetCode.EPKG_FATAL, item := itemPkg, events := [],
             targets := [], attempts := 0, sinkAtPass := [],
             sinkOpens := 0, ubWrite := false } :=
  claim_C10 repoNomirror itemPkg 3 [attempt200]
